import Mathlib

/-!
Verification of the Slack MCP server core (dispatcher, API gateway,
two-phase upload coordinator, resilience harness) against its
natural-language specification.  The definitions below are a shallow
embedding of the TypeScript source: JavaScript promises that resolve
become `Except.ok`, thrown exceptions / rejected promises become
`Except.error`, and the network is an explicit oracle describing the
outcome of each outbound call.  Outbound HTTP traffic is recorded as an
explicit trace so that call-count properties can be stated.
-/

namespace SlackMcp

/-- Model of a decoded Slack API JSON response body.  Only the fields the
source actually reads are modelled (`ok`, `error`, `needed`, `provided`,
`upload_url`, `file_id`); `extra` stands for all remaining payload so that
two responses with the same flags can still differ and a theorem stating
the body is returned verbatim has content. -/
structure SlackResponse where
  ok : Bool
  error : String := ""
  needed : String := ""
  provided : String := ""
  upload_url : String := ""
  file_id : String := ""
  extra : String := ""
deriving Repr, DecidableEq

/-- Outcome of one `fetch` of the main API followed by `response.json()`:
either the transport-level request or the JSON decode fails (a thrown
exception), or it produces an HTTP status and a decoded body. -/
inductive FetchOutcome where
  | transportError (msg : String)
  | success (status : Nat) (body : SlackResponse)
deriving Repr, DecidableEq

/-- An HTTP header pair as built in the `SlackClient` constructor. -/
structure Headers where
  authorization : String
  contentType : String
deriving Repr, DecidableEq

/-- The client state: the two bearer credentials captured at construction
(`botToken` from the constructor argument, `userToken` from
`SLACK_USER_TOKEN`). -/
structure SlackClient where
  botToken : String
  userToken : String
deriving Repr, DecidableEq

/-- Headers assigned to `this.botHeaders` in the `SlackClient` constructor. -/
def SlackClient.botHeaders (c : SlackClient) : Headers :=
  ⟨"Bearer " ++ c.botToken, "application/json;charset=utf-8"⟩

/-- Headers assigned to `this.userHeaders` in the `SlackClient` constructor. -/
def SlackClient.userHeaders (c : SlackClient) : Headers :=
  ⟨"Bearer " ++ c.userToken, "application/json;charset=utf-8"⟩

/-- A file entry of a `files.completeUploadExternal` body:
`\x7bid, title\x7d`. -/
structure CompletedFile where
  id : String
  title : String
deriving Repr, DecidableEq

/-- The request bodies the modelled client methods serialise with
`JSON.stringify`.  `fields` is a generic key/value body used for the
methods whose exact payload is not claim-relevant. -/
inductive ApiBody where
  | getUploadURL (filename : String) (length : Nat) (alt_text : Option String)
  | completeUpload (files : List CompletedFile) (channel_id : Option String)
      (initial_comment : Option String) (thread_ts : Option String)
  | fields (kvs : List (String × String))
deriving Repr, DecidableEq

/-- The subset of `RequestInit` the source uses: a method, an optional
headers override and an optional body. -/
structure RequestOptions where
  method : String := "GET"
  headersOverride : Option Headers := none
  body : Option ApiBody := none
deriving Repr, DecidableEq

/-- One outbound request as actually sent by `makeApiRequest` (after
header selection). -/
structure HttpRequest where
  url : String
  method : String
  headers : Headers
  body : Option ApiBody
deriving Repr, DecidableEq

/-- Log entries emitted by `makeApiRequest` via the `Logger`. -/
inductive LogEntry where
  | apiRequest (method url : String)
  | apiResponse (method url : String) (status : Nat)
  | errorEntry (msg : String) (errCode needed provided : String)
deriving Repr, DecidableEq

/-- Credential selection: `useUserToken ? this.userHeaders : this.botHeaders`. -/
def selectedHeaders (c : SlackClient) (useUserToken : Bool) : Headers :=
  if useUserToken then c.userHeaders else c.botHeaders

/-- Header override policy `options.headers || headers`: a caller-supplied
headers object wins over the credential-selected default. -/
def effectiveHeaders (c : SlackClient) (opts : RequestOptions)
    (useUserToken : Bool) : Headers :=
  match opts.headersOverride with
  | some h => h
  | none => selectedHeaders c useUserToken

/-- Model of `SlackClient.makeApiRequest`: logs the request, performs the fetch,
decodes JSON.  A transport/decode failure is logged and re-thrown
(`Except.error`).  A decoded body is returned as-is, even when its `ok`
field is false; in that case an extra error-level log entry capturing the
reported code and scopes is emitted.  The third component records the
request that was sent. -/
def makeApiRequest (c : SlackClient) (url : String) (opts : RequestOptions)
    (useUserToken : Bool) (fetchRes : FetchOutcome) :
    (Except String SlackResponse × List LogEntry) × HttpRequest :=
  let method := opts.method
  let req : HttpRequest := ⟨url, method, effectiveHeaders c opts useUserToken, opts.body⟩
  let reqLog := LogEntry.apiRequest method url
  (match fetchRes with
   | FetchOutcome.transportError msg =>
       (Except.error msg,
        [reqLog, LogEntry.errorEntry ("Network error for " ++ method ++ " " ++ url) "" "" ""])
   | FetchOutcome.success status body =>
       let respLog := LogEntry.apiResponse method url status
       if body.ok then
         (Except.ok body, [reqLog, respLog])
       else
         (Except.ok body,
          [reqLog, respLog,
           LogEntry.errorEntry ("Slack API error for " ++ method ++ " " ++ url)
             body.error body.needed body.provided]),
   req)

/-! The process resilience harness installed in `main`: a global error
counter, a 60-second reset interval, `uncaughtException` and
`unhandledRejection` handlers that increment the counter and exit the
process with status 1 once it reaches `MAX_ERROR_COUNT`, and signal
handlers that exit with status 0. -/

/-- Threshold `MAX_ERROR_COUNT = 10`. -/
def MAX_ERROR_COUNT : Nat := 10

/-- Interval `ERROR_RESET_INTERVAL = 60000` (milliseconds). -/
def ERROR_RESET_INTERVAL : Nat := 60000

/-- Harness state: the mutable `errorCount` plus whether `process.exit`
has been called (and with which status). -/
structure HarnessState where
  errorCount : Nat
  exitCode : Option Nat
deriving Repr, DecidableEq

/-- Events the harness reacts to: an uncaught asynchronous fault
(`uncaughtException` or `unhandledRejection`), a tick of the
`ERROR_RESET_INTERVAL` timer, and an operator shutdown signal
(`SIGINT`/`SIGTERM`). -/
inductive HarnessEvent where
  | fault
  | resetTimer
  | shutdownSignal
deriving Repr, DecidableEq

/-- One harness transition.  On a fault: `errorCount++`, then
`if (errorCount >= MAX_ERROR_COUNT) process.exit(1)`.  On a timer tick:
the count is reset to 0 (the source only assigns when it is positive, but
the resulting state is the same).  On a signal: the interval is cleared
and `process.exit(0)` runs.  A terminated process reacts to nothing. -/
def harnessStep (s : HarnessState) (e : HarnessEvent) : HarnessState :=
  match s.exitCode with
  | some _ => s
  | none =>
    match e with
    | HarnessEvent.fault =>
        let c := s.errorCount + 1
        if MAX_ERROR_COUNT ≤ c then ⟨c, some 1⟩ else ⟨c, none⟩
    | HarnessEvent.resetTimer => ⟨0, none⟩
    | HarnessEvent.shutdownSignal => ⟨s.errorCount, some 0⟩

/-- A run of the harness over a sequence of events. -/
def harnessRun (s : HarnessState) (es : List HarnessEvent) : HarnessState :=
  es.foldl harnessStep s

/-! The two-phase upload coordinator `SlackClient.uploadFile_v2` and the
client methods it builds on. -/

/-- Outcome of the step-2 direct `fetch` POST of the raw bytes to the
one-time upload URL: either the fetch rejects, or it yields a response
with an HTTP status and status text. -/
inductive DirectFetchOutcome where
  | fetchError (msg : String)
  | response (status : Nat) (statusText : String)
deriving Repr, DecidableEq

/-- The `Response.ok` predicate of `fetch`: status in the range 200-299. -/
def statusOk (status : Nat) : Bool := 200 ≤ status && status < 300

/-- JavaScript truthiness of an optional string argument: `undefined` and
the empty string are falsy. -/
def truthy : Option String → Bool
  | none => false
  | some s => !(s == "")

/-- JavaScript `s || dflt` for a string `s`: the fallback is used when
`s` is empty. -/
def strFallback (s dflt : String) : String := if s = "" then dflt else s

/-- JavaScript `o || dflt` for an optional string `o`: the fallback is
used when `o` is `undefined` or empty. -/
def strOrElse (o : Option String) (dflt : String) : String :=
  match o with
  | some s => strFallback s dflt
  | none => dflt

/-- POSIX `path.basename`: the last path component, ignoring trailing
slashes. -/
def basename (p : String) : String :=
  let trimmed := String.mk ((p.toList.reverse.dropWhile (fun ch => ch == '/')).reverse)
  (trimmed.splitOn "/").getLastD ""

/-- UTF-8 encoding of a string, modelling `Buffer.from(content, 'utf8')`. -/
def utf8Bytes (s : String) : List UInt8 := s.data.flatMap String.utf8EncodeChar

/-- Environment of one `uploadFile_v2` invocation: the filesystem
(`fs.readFile`), the `mime-types` lookup table, and the network outcome of
each of the three protocol steps. -/
structure UploadEnv where
  fsRead : String → Except String (List UInt8)
  mimeLookup : String → Option String
  step1 : FetchOutcome
  step2 : DirectFetchOutcome
  step3 : FetchOutcome

/-- Arguments of the `slack_files_upload_v2` tool
(`FilesUploadArgs` in the source). -/
structure FilesUploadArgs where
  content : Option String := none
  file_path : Option String := none
  filename : Option String := none
  filetype : Option String := none
  title : Option String := none
  initial_comment : Option String := none
  channels : Option (List String) := none
  thread_ts : Option String := none
deriving Repr, DecidableEq

/-- Arguments of `files.getUploadURLExternal`
(`FilesGetUploadURLExternalArgs` in the source). -/
structure FilesGetUploadURLExternalArgs where
  filename : String
  length : Nat
  alt_txt : Option String := none
deriving Repr, DecidableEq

/-- Arguments of `files.completeUploadExternal`
(`FilesCompleteUploadExternalArgs` in the source). -/
structure FilesCompleteUploadExternalArgs where
  files : List CompletedFile
  channel_id : Option String := none
  initial_comment : Option String := none
  thread_ts : Option String := none
deriving Repr, DecidableEq

/-- Model of `SlackClient.getUploadURLExternal`: a gateway POST to
`files.getUploadURLExternal` with the elevated (user) credential. -/
def SlackClient.getUploadURLExternal (c : SlackClient)
    (args : FilesGetUploadURLExternalArgs) (fetchRes : FetchOutcome) :
    (Except String SlackResponse × List LogEntry) × HttpRequest :=
  makeApiRequest c "https://slack.com/api/files.getUploadURLExternal"
    ⟨"POST", none, some (ApiBody.getUploadURL args.filename args.length args.alt_txt)⟩
    true fetchRes

/-- Model of `SlackClient.completeUploadExternal`: a gateway POST to
`files.completeUploadExternal` with the elevated (user) credential. -/
def SlackClient.completeUploadExternal (c : SlackClient)
    (args : FilesCompleteUploadExternalArgs) (fetchRes : FetchOutcome) :
    (Except String SlackResponse × List LogEntry) × HttpRequest :=
  makeApiRequest c "https://slack.com/api/files.completeUploadExternal"
    ⟨"POST", none,
      some (ApiBody.completeUpload args.files args.channel_id
        args.initial_comment args.thread_ts)⟩
    true fetchRes

/-- One outbound HTTP call of the upload coordinator: either a call
through the gateway (`makeApiRequest`) or the step-2 direct POST of the
raw bytes (which bypasses the gateway and carries no bearer header). -/
inductive OutboundCall where
  | gateway (req : HttpRequest)
  | direct (url : String) (contentType : String) (body : List UInt8)
deriving Repr, DecidableEq

/-- Result of the input-resolution phase of `uploadFile_v2`: the content
bytes, the effective filename and the effective content type. -/
structure ResolvedUpload where
  content : List UInt8
  filename : String
  filetype : String
deriving Repr, DecidableEq

/-- Input resolution of `uploadFile_v2` (everything before step 1).  With
a truthy `file_path` the content is read from the filesystem (a read
failure is wrapped and re-thrown), the filename defaults to the base name
of the path and the content type is auto-detected via the `mime-types`
lookup with fallback `application/octet-stream`.  Otherwise, with truthy
`content` and `filename`, the content is the UTF-8 encoding of the inline
text and the content type defaults to `text/plain`.  Otherwise it throws
the missing-argument error. -/
def resolveUploadInput (env : UploadEnv) (args : FilesUploadArgs) :
    Except String ResolvedUpload :=
  if truthy args.file_path then
    let p := args.file_path.getD ""
    match env.fsRead p with
    | Except.error msg =>
        Except.error ("Failed to read file at " ++ p ++ ": " ++ msg)
    | Except.ok bytes =>
        Except.ok
          ⟨bytes,
           strOrElse args.filename (basename p),
           if truthy args.filetype then args.filetype.getD ""
           else (env.mimeLookup p).getD "application/octet-stream"⟩
  else if truthy args.content && truthy args.filename then
    Except.ok
      ⟨utf8Bytes (args.content.getD ""),
       args.filename.getD "",
       strOrElse args.filetype "text/plain"⟩
  else
    Except.error "Either file_path or both content and filename are required for file upload"

/-- Model of `SlackClient.uploadFile_v2`, the two-phase upload
coordinator.  After input resolution: step 1 reserves an upload URL via
the gateway; an `ok:false` body stops the operation and is returned
verbatim; step 2 POSTs the raw bytes directly to the returned URL and
throws on a non-2xx status; step 3 finalises via the gateway, forwarding
only the first element of `channels` (`args.channels?.[0]`).  The second
component is the trace of outbound HTTP calls in order. -/
def SlackClient.uploadFile_v2 (c : SlackClient) (env : UploadEnv)
    (args : FilesUploadArgs) :
    Except String SlackResponse × List OutboundCall :=
  match resolveUploadInput env args with
  | Except.error e => (Except.error e, [])
  | Except.ok r =>
    let step1 := SlackClient.getUploadURLExternal c
      ⟨r.filename, r.content.length, none⟩ env.step1
    let call1 := OutboundCall.gateway step1.2
    match step1.1.1 with
    | Except.error e => (Except.error e, [call1])
    | Except.ok uploadUrlResponse =>
      if uploadUrlResponse.ok then
        let call2 := OutboundCall.direct uploadUrlResponse.upload_url
          (strFallback r.filetype "application/octet-stream") r.content
        match env.step2 with
        | DirectFetchOutcome.fetchError msg => (Except.error msg, [call1, call2])
        | DirectFetchOutcome.response status statusText =>
          if statusOk status then
            let step3 := SlackClient.completeUploadExternal c
              ⟨[⟨uploadUrlResponse.file_id, strOrElse args.title r.filename⟩],
                Option.bind args.channels List.head?,
                args.initial_comment, args.thread_ts⟩ env.step3
            (step3.1.1, [call1, call2, OutboundCall.gateway step3.2])
          else
            (Except.error ("Upload failed: " ++ statusText), [call1, call2])
      else
        (Except.ok uploadUrlResponse, [call1])

/-! Client methods that require the elevated (user) credential.  The
`URLSearchParams` serialisation of GET-style methods is abstracted as an
already-serialised `params` string, since only the target endpoint,
method, credential selection and body shape are claim-relevant. -/

/-- Model of `SlackClient.deleteFile`: POST `files.delete` with the
elevated credential. -/
def SlackClient.deleteFile (c : SlackClient) (file : String)
    (fetchRes : FetchOutcome) :
    (Except String SlackResponse × List LogEntry) × HttpRequest :=
  makeApiRequest c "https://slack.com/api/files.delete"
    ⟨"POST", none, some (ApiBody.fields [("file", file)])⟩ true fetchRes

/-- Model of `SlackClient.searchMessages`: GET `search.messages` with the
elevated credential. -/
def SlackClient.searchMessages (c : SlackClient) (params : String)
    (fetchRes : FetchOutcome) :
    (Except String SlackResponse × List LogEntry) × HttpRequest :=
  makeApiRequest c ("https://slack.com/api/search.messages?" ++ params)
    ⟨"GET", none, none⟩ true fetchRes

/-- Model of `SlackClient.searchFiles`: GET `search.files` with the
elevated credential. -/
def SlackClient.searchFiles (c : SlackClient) (params : String)
    (fetchRes : FetchOutcome) :
    (Except String SlackResponse × List LogEntry) × HttpRequest :=
  makeApiRequest c ("https://slack.com/api/search.files?" ++ params)
    ⟨"GET", none, none⟩ true fetchRes

/-- Model of `SlackClient.addReminder`: POST `reminders.add` with the
elevated credential. -/
def SlackClient.addReminder (c : SlackClient) (text time : String)
    (user : Option String) (fetchRes : FetchOutcome) :
    (Except String SlackResponse × List LogEntry) × HttpRequest :=
  makeApiRequest c "https://slack.com/api/reminders.add"
    ⟨"POST", none,
      some (ApiBody.fields ([("text", text), ("time", time)] ++
        (match user with | some u => [("user", u)] | none => [])))⟩
    true fetchRes

/-- Model of `SlackClient.listReminders`: GET `reminders.list` with the
elevated credential. -/
def SlackClient.listReminders (c : SlackClient) (params : String)
    (fetchRes : FetchOutcome) :
    (Except String SlackResponse × List LogEntry) × HttpRequest :=
  makeApiRequest c ("https://slack.com/api/reminders.list?" ++ params)
    ⟨"GET", none, none⟩ true fetchRes

/-- Model of `SlackClient.deleteReminder`: POST `reminders.delete` with
the elevated credential. -/
def SlackClient.deleteReminder (c : SlackClient) (reminder : String)
    (fetchRes : FetchOutcome) :
    (Except String SlackResponse × List LogEntry) × HttpRequest :=
  makeApiRequest c "https://slack.com/api/reminders.delete"
    ⟨"POST", none, some (ApiBody.fields [("reminder", reminder)])⟩ true fetchRes

/-! The tool dispatcher: the `CallToolRequest` handler of `main`. -/

/-- The tool names handled by the dispatch switch, in source order.  The
`ListTools` catalog contains exactly the descriptors with these names. -/
def toolCatalog : List String :=
  ["slack_list_channels", "slack_post_message", "slack_reply_to_thread",
   "slack_add_reaction", "slack_get_channel_history", "slack_get_thread_replies",
   "slack_get_users", "slack_get_user_profile", "slack_user_email",
   "slack_canvas_create", "slack_canvas_edit", "slack_channel_canvas_create",
   "slack_canvas_get", "slack_canvas_delete", "slack_canvas_access_set",
   "slack_files_upload", "slack_files_list", "slack_files_info",
   "slack_files_delete", "slack_files_getUploadURLExternal",
   "slack_files_completeUploadExternal", "slack_files_upload_v2",
   "slack_search_messages", "slack_search_files", "slack_reminders_add",
   "slack_reminders_list", "slack_reminders_delete", "slack_conversation_create",
   "slack_conversation_archive", "slack_conversation_unarchive",
   "slack_conversation_invite", "slack_conversation_kick",
   "slack_conversation_rename", "slack_conversation_set_purpose",
   "slack_conversation_set_topic", "slack_conversation_join",
   "slack_conversation_leave", "slack_pins_add", "slack_pins_remove",
   "slack_pins_list", "slack_reactions_remove", "slack_reactions_get",
   "slack_reactions_list", "slack_views_open", "slack_views_update",
   "slack_views_push"]

/-- JSON string escaping of one character, as `JSON.stringify` performs
on the characters that can occur in the modelled payloads. -/
def jsonEscapeChar (ch : Char) : String :=
  if ch = '"' then "\\\""
  else if ch = '\\' then "\\\\"
  else if ch = '\n' then "\\n"
  else if ch = '\r' then "\\r"
  else if ch = '\t' then "\\t"
  else String.mk [ch]

/-- JSON string literal rendering. -/
def jsonQuote (s : String) : String :=
  "\"" ++ String.join (s.toList.map jsonEscapeChar) ++ "\""

/-- The text the dispatcher's catch block produces:
`JSON.stringify(\x7berror, tool, hint\x7d)` with the fixed debug hint, in
insertion order. -/
def errorResultText (message toolName : String) : String :=
  "\x7b\"error\":" ++ jsonQuote message ++ ",\"tool\":" ++ jsonQuote toolName ++
  ",\"hint\":\"Enable debug mode with SLACK_MCP_LOG_LEVEL=debug for more details\"\x7d"

/-- Modelled from the spec's words, for comparison only: the payload the
specification describes for the catch block, `\x7berror: message, tool:
name\x7d` with no further fields. -/
def claimedErrorResultText (message toolName : String) : String :=
  "\x7b\"error\":" ++ jsonQuote message ++ ",\"tool\":" ++ jsonQuote toolName ++ "\x7d"

/-- Serialisation of a successful handler response
(`JSON.stringify(response)`) over the modelled response fields. -/
def serializeSlackResponse (r : SlackResponse) : String :=
  "\x7b\"ok\":" ++ (if r.ok then "true" else "false") ++
  ",\"error\":" ++ jsonQuote r.error ++ ",\"extra\":" ++ jsonQuote r.extra ++ "\x7d"

/-- One typed content part of a tool result. -/
structure ContentPart where
  type : String
  text : String
deriving Repr, DecidableEq

/-- A tool result: an ordered sequence of content parts (the source only
ever produces a single text part). -/
structure ToolResult where
  content : List ContentPart
deriving Repr, DecidableEq

/-- The parameters of an incoming `CallToolRequest`: the tool name and the
optional untyped arguments object (modelled as a key-value list; only its
presence matters to the dispatcher itself). -/
structure ToolRequestParams where
  name : String
  arguments : Option (List (String × String))
deriving Repr, DecidableEq

/-- Outcome of running the matched case body of the dispatch switch
(argument validation, client call, wrapping): it either produces a
response or throws. -/
inductive HandlerOutcome where
  | success (response : SlackResponse)
  | thrown (message : String)
deriving Repr, DecidableEq

/-- Model of the `CallToolRequest` handler.  Inside one big try/catch:
absent arguments throw `No arguments provided`; a name outside the switch
hits the default case and throws `Unknown tool: <name>`; a matched case
body runs (`exec`, with `execCalls` the outbound calls it made before
returning or throwing) and a successful response is wrapped verbatim into
a single text content part.  The catch turns any thrown error into a
normal `ToolResult` carrying `errorResultText`.  The second component is
the outbound-call trace of the whole invocation. -/
def dispatchToolCall (req : ToolRequestParams) (exec : HandlerOutcome)
    (execCalls : List OutboundCall) : ToolResult × List OutboundCall :=
  match req.arguments with
  | none => (⟨[⟨"text", errorResultText "No arguments provided" req.name⟩]⟩, [])
  | some _ =>
      if req.name ∈ toolCatalog then
        match exec with
        | HandlerOutcome.success r =>
            (⟨[⟨"text", serializeSlackResponse r⟩]⟩, execCalls)
        | HandlerOutcome.thrown msg =>
            (⟨[⟨"text", errorResultText msg req.name⟩]⟩, execCalls)
      else
        (⟨[⟨"text", errorResultText ("Unknown tool: " ++ req.name) req.name⟩]⟩, [])

/-- C3: `makeApiRequest` throws iff the transport request / JSON decode
fails; a decoded body with `ok:false` is returned unchanged and an
error-level log entry (capturing the reported error code and scopes) is
emitted. -/
theorem makeApiRequest_error_contract
    (c : SlackClient) (url : String) (opts : RequestOptions)
    (useUserToken : Bool) (fetchRes : FetchOutcome) :
    ((∃ msg, (makeApiRequest c url opts useUserToken fetchRes).1.1 = Except.error msg) ↔
      (∃ msg, fetchRes = FetchOutcome.transportError msg)) ∧
    (∀ status body, fetchRes = FetchOutcome.success status body → body.ok = false →
      (makeApiRequest c url opts useUserToken fetchRes).1.1 = Except.ok body ∧
      LogEntry.errorEntry ("Slack API error for " ++ opts.method ++ " " ++ url)
          body.error body.needed body.provided ∈
        (makeApiRequest c url opts useUserToken fetchRes).1.2) := by
  constructor
  · cases fetchRes with
    | transportError msg =>
        simp [makeApiRequest]
    | success status body =>
        simp only [makeApiRequest]
        by_cases hok : body.ok <;> simp [hok]
  · intro status body hfetch hok
    subst hfetch
    simp [makeApiRequest, hok]

/-- Witness for `makeApiRequest_error_contract` at a concrete client,
request and `ok:false` response. -/
theorem makeApiRequest_error_contract_witness :
    (makeApiRequest ⟨"bt", "ut"⟩ "https://slack.com/api/chat.postMessage"
        ⟨"POST", none, none⟩ false
        (FetchOutcome.success 200 ⟨false, "missing_scope", "chat:write", "", "", "", ""⟩)).1.1 =
      Except.ok ⟨false, "missing_scope", "chat:write", "", "", "", ""⟩ ∧
    LogEntry.errorEntry
        ("Slack API error for " ++ "POST" ++ " " ++ "https://slack.com/api/chat.postMessage")
        "missing_scope" "chat:write" "" ∈
      (makeApiRequest ⟨"bt", "ut"⟩ "https://slack.com/api/chat.postMessage"
        ⟨"POST", none, none⟩ false
        (FetchOutcome.success 200 ⟨false, "missing_scope", "chat:write", "", "", "", ""⟩)).1.2 :=
  (makeApiRequest_error_contract ⟨"bt", "ut"⟩ "https://slack.com/api/chat.postMessage"
      ⟨"POST", none, none⟩ false
      (FetchOutcome.success 200 ⟨false, "missing_scope", "chat:write", "", "", "", ""⟩)).2
    200 ⟨false, "missing_scope", "chat:write", "", "", "", ""⟩ rfl rfl

/-- C4: every fault increments the error count; a fault terminates the
process (exit status 1) exactly when the incremented count reaches the
threshold of 10; the recurring timer resets the count to 0 without
terminating; concretely, 9 faults leave the process alive, a 10th fault
before any reset kills it with status 1, and 5 faults followed by a timer
reset followed by 5 more faults leave the process alive. -/
theorem harness_threshold_and_reset :
    (∀ c : Nat, (harnessStep ⟨c, none⟩ HarnessEvent.fault).errorCount = c + 1) ∧
    (∀ c : Nat, (harnessStep ⟨c, none⟩ HarnessEvent.fault).exitCode =
        if MAX_ERROR_COUNT ≤ c + 1 then some 1 else none) ∧
    (∀ c : Nat, harnessStep ⟨c, none⟩ HarnessEvent.resetTimer = ⟨0, none⟩) ∧
    (harnessRun ⟨0, none⟩ (List.replicate 9 HarnessEvent.fault)).exitCode = none ∧
    (harnessRun ⟨0, none⟩ (List.replicate 10 HarnessEvent.fault)).exitCode = some 1 ∧
    (harnessRun ⟨0, none⟩
        (List.replicate 5 HarnessEvent.fault ++
          HarnessEvent.resetTimer :: List.replicate 5 HarnessEvent.fault)).exitCode = none := by
  refine ⟨?_, ?_, ?_, ?_, ?_, ?_⟩
  · intro c
    simp only [harnessStep]
    split <;> rfl
  · intro c
    simp only [harnessStep]
    split <;> rfl
  · intro c
    rfl
  · decide
  · decide
  · decide

/-- Helper: the UTF-8 byte list of a string has length `utf8ByteSize`, so
a byte length computed as `Buffer.from(content, 'utf8').length` is the
UTF-8 byte size of the content. -/
theorem length_utf8Bytes (s : String) : (utf8Bytes s).length = s.utf8ByteSize := by
  cases s with
  | mk data =>
    simp only [utf8Bytes, String.utf8ByteSize]
    induction data with
    | nil => rfl
    | cons c cs ih =>
        simp only [List.flatMap_cons, List.length_append, String.length_utf8EncodeChar,
          String.utf8ByteSize.go, ih]
        omega

/-- Helper: truthiness of a present string argument. -/
theorem truthy_some (s : String) : truthy (some s) = !(s == "") := rfl

/-- Helper: truthiness of an absent argument. -/
theorem truthy_none : truthy none = false := rfl

/-- Helper: a falsy optional string makes `strOrElse` take the default. -/
theorem strOrElse_of_falsy (o : Option String) (d : String) (h : truthy o = false) :
    strOrElse o d = d := by
  cases o with
  | none => rfl
  | some s =>
      simp only [truthy, Bool.not_eq_false', beq_iff_eq] at h
      simp [strOrElse, strFallback, h]

/-- C1: when the step-1 reserve call decodes to a body with `ok:false`,
the coordinator returns that body verbatim and the outbound trace is
exactly the single step-1 gateway call — neither the step-2 byte transfer
nor the step-3 finalize call is issued. -/
theorem uploadFile_v2_step1_failure_stops
    (c : SlackClient) (env : UploadEnv) (args : FilesUploadArgs)
    (r : ResolvedUpload) (st : Nat) (body : SlackResponse)
    (hres : resolveUploadInput env args = Except.ok r)
    (hstep1 : env.step1 = FetchOutcome.success st body)
    (hok : body.ok = false) :
    SlackClient.uploadFile_v2 c env args =
      (Except.ok body,
       [OutboundCall.gateway
          ⟨"https://slack.com/api/files.getUploadURLExternal", "POST",
           c.userHeaders, some (ApiBody.getUploadURL r.filename r.content.length none)⟩]) := by
  simp [SlackClient.uploadFile_v2, hres, SlackClient.getUploadURLExternal,
    makeApiRequest, hstep1, hok, effectiveHeaders, selectedHeaders]

/-- Witness for `uploadFile_v2_step1_failure_stops` at a concrete upload
of inline content against a reserve call answering `ok:false`. -/
theorem uploadFile_v2_step1_failure_stops_witness :
    SlackClient.uploadFile_v2 ⟨"bt", "ut"⟩
      ⟨fun _ => Except.error "enoent", fun _ => none,
       FetchOutcome.success 200 ⟨false, "not_allowed", "", "", "", "", ""⟩,
       DirectFetchOutcome.response 200 "OK",
       FetchOutcome.success 200 ⟨true, "", "", "", "", "", ""⟩⟩
      ⟨some "hi", none, some "a.txt", none, none, none, none, none⟩ =
    (Except.ok ⟨false, "not_allowed", "", "", "", "", ""⟩,
     [OutboundCall.gateway
        ⟨"https://slack.com/api/files.getUploadURLExternal", "POST",
         ⟨"Bearer " ++ "ut", "application/json;charset=utf-8"⟩,
         some (ApiBody.getUploadURL "a.txt" (utf8Bytes "hi").length none)⟩]) :=
  uploadFile_v2_step1_failure_stops ⟨"bt", "ut"⟩
    ⟨fun _ => Except.error "enoent", fun _ => none,
     FetchOutcome.success 200 ⟨false, "not_allowed", "", "", "", "", ""⟩,
     DirectFetchOutcome.response 200 "OK",
     FetchOutcome.success 200 ⟨true, "", "", "", "", "", ""⟩⟩
    ⟨some "hi", none, some "a.txt", none, none, none, none, none⟩
    ⟨utf8Bytes "hi", "a.txt", "text/plain"⟩ 200 ⟨false, "not_allowed", "", "", "", "", ""⟩
    rfl rfl rfl

/-- C2: when the step-2 direct byte transfer returns a non-2xx status,
the whole operation throws (`Upload failed`), the trace has exactly the
two calls of steps 1 and 2, and the step-3 finalize call is never
issued. -/
theorem uploadFile_v2_step2_failure_throws
    (c : SlackClient) (env : UploadEnv) (args : FilesUploadArgs)
    (r : ResolvedUpload) (st : Nat) (body : SlackResponse)
    (status : Nat) (statusText : String)
    (hres : resolveUploadInput env args = Except.ok r)
    (hstep1 : env.step1 = FetchOutcome.success st body)
    (hok : body.ok = true)
    (hstep2 : env.step2 = DirectFetchOutcome.response status statusText)
    (hfail : statusOk status = false) :
    SlackClient.uploadFile_v2 c env args =
      (Except.error ("Upload failed: " ++ statusText),
       [OutboundCall.gateway
          ⟨"https://slack.com/api/files.getUploadURLExternal", "POST",
           c.userHeaders, some (ApiBody.getUploadURL r.filename r.content.length none)⟩,
        OutboundCall.direct body.upload_url
          (strFallback r.filetype "application/octet-stream") r.content]) := by
  simp [SlackClient.uploadFile_v2, hres, SlackClient.getUploadURLExternal,
    makeApiRequest, hstep1, hok, hstep2, hfail, effectiveHeaders, selectedHeaders]

/-- Witness for `uploadFile_v2_step2_failure_throws` at a concrete upload
whose byte transfer answers HTTP 500. -/
theorem uploadFile_v2_step2_failure_throws_witness :
    SlackClient.uploadFile_v2 ⟨"bt", "ut"⟩
      ⟨fun _ => Except.error "enoent", fun _ => none,
       FetchOutcome.success 200 ⟨true, "", "", "", "https://up.example/u1", "F1", ""⟩,
       DirectFetchOutcome.response 500 "Internal Server Error",
       FetchOutcome.success 200 ⟨true, "", "", "", "", "", ""⟩⟩
      ⟨some "hi", none, some "a.txt", none, none, none, none, none⟩ =
    (Except.error ("Upload failed: " ++ "Internal Server Error"),
     [OutboundCall.gateway
        ⟨"https://slack.com/api/files.getUploadURLExternal", "POST",
         ⟨"Bearer " ++ "ut", "application/json;charset=utf-8"⟩,
         some (ApiBody.getUploadURL "a.txt" (utf8Bytes "hi").length none)⟩,
      OutboundCall.direct "https://up.example/u1" "text/plain" (utf8Bytes "hi")]) :=
  uploadFile_v2_step2_failure_throws ⟨"bt", "ut"⟩
    ⟨fun _ => Except.error "enoent", fun _ => none,
     FetchOutcome.success 200 ⟨true, "", "", "", "https://up.example/u1", "F1", ""⟩,
     DirectFetchOutcome.response 500 "Internal Server Error",
     FetchOutcome.success 200 ⟨true, "", "", "", "", "", ""⟩⟩
    ⟨some "hi", none, some "a.txt", none, none, none, none, none⟩
    ⟨utf8Bytes "hi", "a.txt", "text/plain"⟩ 200
    ⟨true, "", "", "", "https://up.example/u1", "F1", ""⟩
    500 "Internal Server Error" rfl rfl rfl rfl (by decide)

/-- C10: when more than one channel is requested, only the first element
of `channels` is forwarded as the `channel_id` of the step-3 finalize
body; the remaining channel IDs appear nowhere in the outbound trace. -/
theorem uploadFile_v2_first_channel_only
    (c : SlackClient) (env : UploadEnv) (args : FilesUploadArgs)
    (r : ResolvedUpload) (st : Nat) (body : SlackResponse)
    (status : Nat) (statusText : String) (ch : String) (chs : List String)
    (hres : resolveUploadInput env args = Except.ok r)
    (hstep1 : env.step1 = FetchOutcome.success st body)
    (hok : body.ok = true)
    (hstep2 : env.step2 = DirectFetchOutcome.response status statusText)
    (hsucc : statusOk status = true)
    (hch : args.channels = some (ch :: chs)) :
    (SlackClient.uploadFile_v2 c env args).2 =
      [OutboundCall.gateway
         ⟨"https://slack.com/api/files.getUploadURLExternal", "POST",
          c.userHeaders, some (ApiBody.getUploadURL r.filename r.content.length none)⟩,
       OutboundCall.direct body.upload_url
         (strFallback r.filetype "application/octet-stream") r.content,
       OutboundCall.gateway
         ⟨"https://slack.com/api/files.completeUploadExternal", "POST",
          c.userHeaders,
          some (ApiBody.completeUpload
            [⟨body.file_id, strOrElse args.title r.filename⟩]
            (some ch) args.initial_comment args.thread_ts)⟩] := by
  simp [SlackClient.uploadFile_v2, hres, SlackClient.getUploadURLExternal,
    SlackClient.completeUploadExternal, makeApiRequest, hstep1, hok, hstep2, hsucc, hch,
    effectiveHeaders, selectedHeaders]

/-- Witness for `uploadFile_v2_first_channel_only` at a concrete upload
requesting three channels: only `C1` reaches the finalize body. -/
theorem uploadFile_v2_first_channel_only_witness :
    (SlackClient.uploadFile_v2 ⟨"bt", "ut"⟩
      ⟨fun _ => Except.error "enoent", fun _ => none,
       FetchOutcome.success 200 ⟨true, "", "", "", "https://up.example/u1", "F1", ""⟩,
       DirectFetchOutcome.response 200 "OK",
       FetchOutcome.success 200 ⟨true, "", "", "", "", "", ""⟩⟩
      ⟨some "hi", none, some "a.txt", none, none, none,
       some ["C1", "C2", "C3"], none⟩).2 =
      [OutboundCall.gateway
         ⟨"https://slack.com/api/files.getUploadURLExternal", "POST",
          ⟨"Bearer " ++ "ut", "application/json;charset=utf-8"⟩,
          some (ApiBody.getUploadURL "a.txt" (utf8Bytes "hi").length none)⟩,
       OutboundCall.direct "https://up.example/u1" "text/plain" (utf8Bytes "hi"),
       OutboundCall.gateway
         ⟨"https://slack.com/api/files.completeUploadExternal", "POST",
          ⟨"Bearer " ++ "ut", "application/json;charset=utf-8"⟩,
          some (ApiBody.completeUpload [⟨"F1", "a.txt"⟩] (some "C1") none none)⟩] :=
  uploadFile_v2_first_channel_only ⟨"bt", "ut"⟩
    ⟨fun _ => Except.error "enoent", fun _ => none,
     FetchOutcome.success 200 ⟨true, "", "", "", "https://up.example/u1", "F1", ""⟩,
     DirectFetchOutcome.response 200 "OK",
     FetchOutcome.success 200 ⟨true, "", "", "", "", "", ""⟩⟩
    ⟨some "hi", none, some "a.txt", none, none, none, some ["C1", "C2", "C3"], none⟩
    ⟨utf8Bytes "hi", "a.txt", "text/plain"⟩ 200
    ⟨true, "", "", "", "https://up.example/u1", "F1", ""⟩
    200 "OK" "C1" ["C2", "C3"] rfl rfl rfl rfl (by decide) rfl

/-- C8: input resolution of the two-phase upload.  Supplying neither a
file path nor inline content with a filename throws before any outbound
call; inline content resolves to its UTF-8 bytes (whose count is the
declared length and equals the UTF-8 byte size) with default content type
`text/plain`; once resolution succeeds the step-1 reserve call declares
exactly the resolved byte count; a file path resolves with the filename
defaulting to the base name of the path and the content type auto-detected
via the mime lookup with fallback `application/octet-stream`. -/
theorem uploadFile_v2_input_resolution :
    (∀ (c : SlackClient) (env : UploadEnv) (args : FilesUploadArgs),
      truthy args.file_path = false →
      (truthy args.content && truthy args.filename) = false →
      SlackClient.uploadFile_v2 c env args =
        (Except.error
          "Either file_path or both content and filename are required for file upload",
         [])) ∧
    (∀ (env : UploadEnv) (args : FilesUploadArgs) (content filename : String),
      truthy args.file_path = false →
      args.content = some content → args.filename = some filename →
      content ≠ "" → filename ≠ "" →
      resolveUploadInput env args =
        Except.ok ⟨utf8Bytes content, filename, strOrElse args.filetype "text/plain"⟩ ∧
      (utf8Bytes content).length = content.utf8ByteSize) ∧
    (∀ (c : SlackClient) (env : UploadEnv) (args : FilesUploadArgs) (r : ResolvedUpload),
      resolveUploadInput env args = Except.ok r →
      ∃ rest, (SlackClient.uploadFile_v2 c env args).2 =
        OutboundCall.gateway
          ⟨"https://slack.com/api/files.getUploadURLExternal", "POST",
           c.userHeaders, some (ApiBody.getUploadURL r.filename r.content.length none)⟩ :: rest) ∧
    (∀ (env : UploadEnv) (args : FilesUploadArgs) (p : String) (bytes : List UInt8),
      args.file_path = some p → p ≠ "" →
      env.fsRead p = Except.ok bytes →
      truthy args.filename = false →
      truthy args.filetype = false →
      resolveUploadInput env args =
        Except.ok ⟨bytes, basename p, (env.mimeLookup p).getD "application/octet-stream"⟩) := by
  refine ⟨?_, ?_, ?_, ?_⟩
  · intro c env args h1 h2
    simp [SlackClient.uploadFile_v2, resolveUploadInput, h1, h2]
  · intro env args content filename hfp hc hf hcne hfne
    refine ⟨?_, length_utf8Bytes content⟩
    simp [resolveUploadInput, hfp, hc, hf, truthy_some, hcne, hfne]
  · intro c env args r hres
    cases h1 : env.step1 with
    | transportError msg =>
        exact ⟨[], by simp [SlackClient.uploadFile_v2, hres,
          SlackClient.getUploadURLExternal, makeApiRequest, h1,
          effectiveHeaders, selectedHeaders]⟩
    | success st body =>
        by_cases hb : body.ok
        · cases h2 : env.step2 with
          | fetchError msg =>
              exact ⟨[OutboundCall.direct body.upload_url
                  (strFallback r.filetype "application/octet-stream") r.content],
                by simp [SlackClient.uploadFile_v2, hres,
                  SlackClient.getUploadURLExternal, makeApiRequest, h1, hb, h2,
                  effectiveHeaders, selectedHeaders]⟩
          | response status statusText =>
              by_cases hs : statusOk status
              · exact ⟨[OutboundCall.direct body.upload_url
                    (strFallback r.filetype "application/octet-stream") r.content,
                  OutboundCall.gateway
                    ⟨"https://slack.com/api/files.completeUploadExternal", "POST",
                     c.userHeaders,
                     some (ApiBody.completeUpload
                       [⟨body.file_id, strOrElse args.title r.filename⟩]
                       (Option.bind args.channels List.head?)
                       args.initial_comment args.thread_ts)⟩],
                  by simp [SlackClient.uploadFile_v2, hres,
                    SlackClient.getUploadURLExternal, SlackClient.completeUploadExternal,
                    makeApiRequest, h1, hb, h2, hs, effectiveHeaders, selectedHeaders]⟩
              · exact ⟨[OutboundCall.direct body.upload_url
                    (strFallback r.filetype "application/octet-stream") r.content],
                  by simp [SlackClient.uploadFile_v2, hres,
                    SlackClient.getUploadURLExternal, makeApiRequest, h1, hb, h2, hs,
                    effectiveHeaders, selectedHeaders]⟩
        · exact ⟨[], by simp [SlackClient.uploadFile_v2, hres,
            SlackClient.getUploadURLExternal, makeApiRequest, h1, hb,
            effectiveHeaders, selectedHeaders]⟩
  · intro env args p bytes hp hpne hfs hfn hft
    simp [resolveUploadInput, hp, truthy_some, hpne, hfs, hft,
      strOrElse_of_falsy args.filename (basename p) hfn]

/-- Witness for `uploadFile_v2_input_resolution`: each conjunct applied at
a concrete input (no arguments at all; inline content `"hi"`; the same
inline upload reaching step 1; a file path `/tmp/b.bin` with no filename
or filetype override). -/
theorem uploadFile_v2_input_resolution_witness :
    SlackClient.uploadFile_v2 ⟨"bt", "ut"⟩
      ⟨fun _ => Except.error "enoent", fun _ => none,
       FetchOutcome.success 200 ⟨true, "", "", "", "", "", ""⟩,
       DirectFetchOutcome.response 200 "OK",
       FetchOutcome.success 200 ⟨true, "", "", "", "", "", ""⟩⟩
      ⟨none, none, none, none, none, none, none, none⟩ =
      (Except.error
        "Either file_path or both content and filename are required for file upload",
       []) ∧
    (resolveUploadInput
      ⟨fun _ => Except.error "enoent", fun _ => none,
       FetchOutcome.success 200 ⟨true, "", "", "", "", "", ""⟩,
       DirectFetchOutcome.response 200 "OK",
       FetchOutcome.success 200 ⟨true, "", "", "", "", "", ""⟩⟩
      ⟨some "hi", none, some "a.txt", none, none, none, none, none⟩ =
      Except.ok ⟨utf8Bytes "hi", "a.txt", strOrElse none "text/plain"⟩ ∧
     (utf8Bytes "hi").length = "hi".utf8ByteSize) ∧
    (∃ rest,
      (SlackClient.uploadFile_v2 ⟨"bt", "ut"⟩
        ⟨fun _ => Except.error "enoent", fun _ => none,
         FetchOutcome.success 200 ⟨true, "", "", "", "", "", ""⟩,
         DirectFetchOutcome.response 200 "OK",
         FetchOutcome.success 200 ⟨true, "", "", "", "", "", ""⟩⟩
        ⟨some "hi", none, some "a.txt", none, none, none, none, none⟩).2 =
      OutboundCall.gateway
        ⟨"https://slack.com/api/files.getUploadURLExternal", "POST",
         SlackClient.userHeaders ⟨"bt", "ut"⟩,
         some (ApiBody.getUploadURL "a.txt" (utf8Bytes "hi").length none)⟩ :: rest) ∧
    resolveUploadInput
      ⟨fun _ => Except.ok [0, 255], fun _ => some "application/x-binary",
       FetchOutcome.success 200 ⟨true, "", "", "", "", "", ""⟩,
       DirectFetchOutcome.response 200 "OK",
       FetchOutcome.success 200 ⟨true, "", "", "", "", "", ""⟩⟩
      ⟨none, some "/tmp/b.bin", none, none, none, none, none, none⟩ =
      Except.ok ⟨[0, 255], basename "/tmp/b.bin",
        (some "application/x-binary").getD "application/octet-stream"⟩ :=
  ⟨uploadFile_v2_input_resolution.1 ⟨"bt", "ut"⟩
     ⟨fun _ => Except.error "enoent", fun _ => none,
      FetchOutcome.success 200 ⟨true, "", "", "", "", "", ""⟩,
      DirectFetchOutcome.response 200 "OK",
      FetchOutcome.success 200 ⟨true, "", "", "", "", "", ""⟩⟩
     ⟨none, none, none, none, none, none, none, none⟩ rfl rfl,
   uploadFile_v2_input_resolution.2.1
     ⟨fun _ => Except.error "enoent", fun _ => none,
      FetchOutcome.success 200 ⟨true, "", "", "", "", "", ""⟩,
      DirectFetchOutcome.response 200 "OK",
      FetchOutcome.success 200 ⟨true, "", "", "", "", "", ""⟩⟩
     ⟨some "hi", none, some "a.txt", none, none, none, none, none⟩
     "hi" "a.txt" rfl rfl rfl (by decide) (by decide),
   uploadFile_v2_input_resolution.2.2.1 ⟨"bt", "ut"⟩
     ⟨fun _ => Except.error "enoent", fun _ => none,
      FetchOutcome.success 200 ⟨true, "", "", "", "", "", ""⟩,
      DirectFetchOutcome.response 200 "OK",
      FetchOutcome.success 200 ⟨true, "", "", "", "", "", ""⟩⟩
     ⟨some "hi", none, some "a.txt", none, none, none, none, none⟩
     ⟨utf8Bytes "hi", "a.txt", "text/plain"⟩ rfl,
   uploadFile_v2_input_resolution.2.2.2
     ⟨fun _ => Except.ok [0, 255], fun _ => some "application/x-binary",
      FetchOutcome.success 200 ⟨true, "", "", "", "", "", ""⟩,
      DirectFetchOutcome.response 200 "OK",
      FetchOutcome.success 200 ⟨true, "", "", "", "", "", ""⟩⟩
     ⟨none, some "/tmp/b.bin", none, none, none, none, none, none⟩
     "/tmp/b.bin" [0, 255] rfl (by decide) rfl rfl rfl⟩

/-- C6: an incoming call without an arguments object yields the
`No arguments provided` structured error as a normal tool result, with no
outbound HTTP call, for every tool name and whatever the handler would
have done. -/
theorem dispatch_no_arguments (name : String) (exec : HandlerOutcome)
    (calls : List OutboundCall) :
    dispatchToolCall ⟨name, none⟩ exec calls =
      (⟨[⟨"text", errorResultText "No arguments provided" name⟩]⟩, []) := rfl

/-- C7: an incoming call (with arguments present) naming a tool outside
the catalog yields the `Unknown tool` structured error naming the tool,
with no outbound HTTP call. -/
theorem dispatch_unknown_tool (name : String)
    (args : List (String × String)) (exec : HandlerOutcome)
    (calls : List OutboundCall) (hname : name ∉ toolCatalog) :
    dispatchToolCall ⟨name, some args⟩ exec calls =
      (⟨[⟨"text", errorResultText ("Unknown tool: " ++ name) name⟩]⟩, []) := by
  simp [dispatchToolCall, hname]

/-- Witness for `dispatch_unknown_tool` at a concrete unknown tool
name. -/
theorem dispatch_unknown_tool_witness :
    dispatchToolCall ⟨"slack_totally_unknown", some []⟩
      (HandlerOutcome.success ⟨true, "", "", "", "", "", ""⟩) [] =
      (⟨[⟨"text",
          errorResultText ("Unknown tool: " ++ "slack_totally_unknown")
            "slack_totally_unknown"⟩]⟩, []) :=
  dispatch_unknown_tool "slack_totally_unknown" []
    (HandlerOutcome.success ⟨true, "", "", "", "", "", ""⟩) [] (by decide)

/-- C5 (amended): any exception thrown while building or executing a
matched tool call is caught and returned as a normal single-part
`ToolResult` whose text is the JSON serialisation of
`\x7berror: message, tool: name, hint: <fixed debug hint>\x7d`; moreover
every invocation whatsoever yields exactly one result with exactly one
content part, so no exception ever reaches the transport. -/
theorem dispatch_catches_exceptions (req : ToolRequestParams) (msg : String)
    (execCalls : List OutboundCall)
    (hargs : req.arguments.isSome = true)
    (hname : req.name ∈ toolCatalog) :
    dispatchToolCall req (HandlerOutcome.thrown msg) execCalls =
      (⟨[⟨"text", errorResultText msg req.name⟩]⟩, execCalls) ∧
    ∀ (req2 : ToolRequestParams) (exec : HandlerOutcome)
      (calls : List OutboundCall),
      (dispatchToolCall req2 exec calls).1.content.length = 1 := by
  constructor
  · obtain ⟨a, ha⟩ := Option.isSome_iff_exists.mp hargs
    simp [dispatchToolCall, ha, hname]
  · intro req2 exec calls
    rcases req2 with ⟨name2, args2⟩
    cases args2 with
    | none => rfl
    | some a =>
        by_cases hm : name2 ∈ toolCatalog
        · cases exec <;> simp [dispatchToolCall, hm]
        · simp [dispatchToolCall, hm]

/-- Witness for `dispatch_catches_exceptions` at a concrete known tool
whose handler throws. -/
theorem dispatch_catches_exceptions_witness :
    dispatchToolCall ⟨"slack_post_message", some [("channel_id", "C1")]⟩
      (HandlerOutcome.thrown "boom") [] =
      (⟨[⟨"text", errorResultText "boom" "slack_post_message"⟩]⟩, []) ∧
    ∀ (req2 : ToolRequestParams) (exec : HandlerOutcome)
      (calls : List OutboundCall),
      (dispatchToolCall req2 exec calls).1.content.length = 1 :=
  dispatch_catches_exceptions ⟨"slack_post_message", some [("channel_id", "C1")]⟩
    "boom" [] rfl (by decide)

/-- Counterexample to C5 as stated: the catch block's payload is not
exactly `\x7berror, tool\x7d` — the produced text carries an additional
fixed `hint` field, so it differs from the spec-described payload at a
concrete thrown error. -/
theorem dispatch_error_payload_counterexample :
    (dispatchToolCall ⟨"slack_post_message", some []⟩
        (HandlerOutcome.thrown "boom") []).1 =
      ⟨[⟨"text", errorResultText "boom" "slack_post_message"⟩]⟩ ∧
    errorResultText "boom" "slack_post_message" ≠
      claimedErrorResultText "boom" "slack_post_message" := by
  refine ⟨by decide, by decide⟩

/-- C9: every modelled client method documented as requiring the elevated
credential — file deletion, the v2 upload reserve and finalize calls,
search, and the reminder operations — sends its request with
`this.userHeaders`, whose `Authorization` is built from the user token;
and the user headers can only coincide with the bot headers when the two
tokens are themselves equal, so with distinct tokens the primary
credential is never used by these methods. -/
theorem elevated_tools_use_user_credential
    (c : SlackClient) (file params text time reminder : String)
    (user : Option String) (gargs : FilesGetUploadURLExternalArgs)
    (cargs : FilesCompleteUploadExternalArgs) (fetchRes : FetchOutcome) :
    (SlackClient.deleteFile c file fetchRes).2.headers = c.userHeaders ∧
    (SlackClient.getUploadURLExternal c gargs fetchRes).2.headers = c.userHeaders ∧
    (SlackClient.completeUploadExternal c cargs fetchRes).2.headers = c.userHeaders ∧
    (SlackClient.searchMessages c params fetchRes).2.headers = c.userHeaders ∧
    (SlackClient.searchFiles c params fetchRes).2.headers = c.userHeaders ∧
    (SlackClient.addReminder c text time user fetchRes).2.headers = c.userHeaders ∧
    (SlackClient.listReminders c params fetchRes).2.headers = c.userHeaders ∧
    (SlackClient.deleteReminder c reminder fetchRes).2.headers = c.userHeaders ∧
    (c.userHeaders = c.botHeaders → c.userToken = c.botToken) := by
  refine ⟨rfl, rfl, rfl, rfl, rfl, rfl, rfl, rfl, ?_⟩
  intro h
  have h2 : "Bearer " ++ c.userToken = "Bearer " ++ c.botToken :=
    congrArg Headers.authorization h
  have h3 := congrArg String.data h2
  simp [String.data_append] at h3
  exact String.ext h3

/-- Witness for `elevated_tools_use_user_credential`: a concrete client
with distinct tokens observes the user headers on a file deletion, and a
client with equal tokens discharges the coincidence implication. -/
theorem elevated_tools_use_user_credential_witness :
    (SlackClient.deleteFile ⟨"bt", "ut"⟩ "F123"
        (FetchOutcome.success 200 ⟨true, "", "", "", "", "", ""⟩)).2.headers =
      SlackClient.userHeaders ⟨"bt", "ut"⟩ ∧
    SlackClient.userToken ⟨"t", "t"⟩ = SlackClient.botToken ⟨"t", "t"⟩ :=
  ⟨(elevated_tools_use_user_credential ⟨"bt", "ut"⟩ "F123" "q" "lunch" "60" "R1"
      none ⟨"a.txt", 2, none⟩ ⟨[], none, none, none⟩
      (FetchOutcome.success 200 ⟨true, "", "", "", "", "", ""⟩)).1,
   (elevated_tools_use_user_credential ⟨"t", "t"⟩ "F123" "q" "lunch" "60" "R1"
      none ⟨"a.txt", 2, none⟩ ⟨[], none, none, none⟩
      (FetchOutcome.success 200 ⟨true, "", "", "", "", "", ""⟩)).2.2.2.2.2.2.2.2 rfl⟩

end SlackMcp
